import Mathlib

/-!
Shallow embedding of the lambda-gopher-benchmark core:
the metrics collector (internal/metrics/collector.go) and the
read/write/query operation strategies (operations package).

Modelling conventions:
* Go `error` values are their messages: an `Option Err` is `nil` when `none`.
* Go `time.Time` / `time.Duration` are `Int` nanoseconds; every call to
  `time.Now()` in the source becomes an explicit clock-oracle argument.
* Go `map[string]interface{}` is `String → Option GoValue`, where `GoValue`
  tags the dynamic type, so failed type assertions are observable.
* `uuid.New()` and `rand` become oracle arguments.
* The collector's `currentTest` pointer is modelled by the current test's
  name: `StartTest` always stores the current run in the table under its
  name and `EndTest` clears the pointer, so a run is `currentTest` exactly
  when its name is the stored current name.
* Parallel fan-out is linearized in dispatch order: the bounded worker pool
  processes a fixed task list and only the completion order (hence the
  order of collected errors and appended records) is nondeterministic in Go;
  the theorems below only use order-insensitive facts (counts, membership).
-/

namespace Benchmark

/-- Go error values, identified with their message. -/
abbrev Err := String

/-- Dynamic values stored in Go maps of type `map[string]interface{}`.
The constructor records the dynamic type, so a type assertion `val.(T)`
succeeds exactly on the matching constructor. Go `float64` values are
modelled exactly as rationals. -/
inductive GoValue where
  | vInt : Int → GoValue
  | vInt64 : Int → GoValue
  | vFloat64 : Rat → GoValue
  | vBool : Bool → GoValue
  | vStr : String → GoValue
  | vStrList : List String → GoValue
  | vTime : Int → GoValue
deriving DecidableEq, Repr

/-- A string-keyed Go map with dynamic values. -/
abbrev GoMap := String → Option GoValue

/-- The empty Go map. -/
def emptyMap : GoMap := fun _ => none

/-- Map update `m[k] = v`. -/
def setKey (m : GoMap) (k : String) (v : GoValue) : GoMap :=
  fun q => if q = k then some v else m q

/-- OperationType constants of internal/metrics/collector.go. -/
inductive OperationType where
  | read | write | query | batch | transaction
deriving DecidableEq, Repr

/- Error messages and map keys of the source, as named constants. -/

def errNilOperation : Err := "operation function cannot be nil"

def errNoTestRunning : Err := "no test is currently running"

def errAllReadsFailed : Err := "all read operations failed"

def errAllWritesFailed : Err := "all write operations failed"

def errRandomIDsRequirePregen : Err := "reading random IDs requires pre-generating transactions first"

def msgReadFail (txID : String) (e : Err) : Err :=
  "failed to read transaction " ++ txID ++ ": " ++ e

def msgWriteFail (txID : String) (e : Err) : Err :=
  "failed to write transaction " ++ txID ++ ": " ++ e

def msgBatchFail (batchIndex : Nat) (e : Err) : Err :=
  "failed to write batch " ++ toString batchIndex ++ ": " ++ e

def msgQueryFail (e : Err) : Err :=
  "failed to execute query: " ++ e

def kOperationCount : String := "operationCount"

def kTotalDuration : String := "totalDuration"

def kAvgDuration : String := "avgDuration"

def kAverageDuration : String := "averageDuration"

def kTotalItems : String := "totalItems"

def kTotalBytes : String := "totalBytes"

def kSuccessCount : String := "successCount"

def kErrorCount : String := "errorCount"

def kSuccessRate : String := "successRate"

def kThroughputItems : String := "throughputItems"

def kThroughputBytes : String := "throughputBytes"

def kColdStartCount : String := "coldStartCount"

def kP50 : String := "p50"

def kP90 : String := "p90"

def kP99 : String := "p99"

def keyItemCount : String := "itemCount"

def keyAccountId : String := "accountId"

def keyUseRandomIDs : String := "useRandomIDs"

def keyConsistentRead : String := "consistentRead"

def keyConcurrency : String := "concurrency"

def keyIsColdStart : String := "isColdStart"

def keyDataSize : String := "dataSize"

def keyTransactionIDs : String := "transactionIDs"

def keyBatchSize : String := "batchSize"

def keyStartTime : String := "startTime"

def keyEndTime : String := "endTime"

def keyLimit : String := "limit"

def defaultAccount : String := "test-account"

/-- OperationMetric of collector.go. `error` models both the `Error` and
`ErrorMessage` fields (the message is `err.Error()`, i.e. the value itself);
the never-populated `CustomMetrics` field is omitted. -/
structure OperationMetric where
  type : OperationType
  startTime : Int
  endTime : Int
  duration : Int
  itemCount : Int
  byteCount : Int
  isColdStart : Bool
  error : Option Err
deriving DecidableEq, Repr

/-- TestResult of collector.go. -/
structure TestResult where
  testName : String
  description : String
  database : String
  config : GoMap
  parameters : GoMap
  startTime : Int
  endTime : Int
  duration : Int
  operations : List OperationMetric
  summary : GoMap

/-- Collector of collector.go. The mutex only serializes access and has no
sequential-semantics content; `currentTest` stores the current run's name
(see the module comment for why this models the Go pointer). -/
structure Collector where
  currentTest : Option String
  tests : String → Option TestResult

/-- NewCollector. -/
def newCollector : Collector :=
  { currentTest := none, tests := fun _ => none }

/-- The fresh TestResult built by StartTest. -/
def initialRun (name description database : String) (config parameters : GoMap)
    (now : Int) : TestResult :=
  { testName := name, description := description, database := database,
    config := config, parameters := parameters, startTime := now,
    endTime := 0, duration := 0, operations := [], summary := emptyMap }

/-- Collector.StartTest: creates a run, stores it under `name` and makes it
current. `now` is the `time.Now()` reading. -/
def startTest (c : Collector) (name description database : String)
    (config parameters : GoMap) (now : Int) : Collector :=
  let t := initialRun name description database config parameters now
  { currentTest := some name,
    tests := fun k => if k = name then some t else c.tests k }

/-- The outcome of Collector.MeasureOperation: the updated collector, the
returned error, and whether the work callback was invoked (the source calls
`operation()` only after the nil-callback and no-current-test checks). -/
structure MeasureOutcome where
  collector : Collector
  result : Option Err
  invoked : Bool

/-- The OperationMetric literal MeasureOperation builds and appends:
duration is derived from the two clock readings, and the error field is the
callback's result. -/
def recordedMetric (opType : OperationType) (itemCount byteCount : Int)
    (isColdStart : Bool) (opResult : Option Err) (startNow endNow : Int) :
    OperationMetric :=
  { type := opType, startTime := startNow, endTime := endNow,
    duration := endNow - startNow, itemCount := itemCount,
    byteCount := byteCount, isColdStart := isColdStart, error := opResult }

/-- Collector.MeasureOperation. The work callback is `none` for a nil
function and `some r` for a callback whose (side-effect-free, from the
collector's point of view) invocation returns `r`. `startNow`/`endNow` are
the two `time.Now()` readings around the call. -/
def measureOperation (c : Collector) (opType : OperationType)
    (itemCount byteCount : Int) (isColdStart : Bool)
    (operation : Option (Option Err)) (startNow endNow : Int) : MeasureOutcome :=
  match operation with
  | none => { collector := c, result := some errNilOperation, invoked := false }
  | some opResult =>
    match c.currentTest with
    | none => { collector := c, result := some errNoTestRunning, invoked := false }
    | some name =>
      let metric := recordedMetric opType itemCount byteCount isColdStart
        opResult startNow endNow
      { collector :=
          { currentTest := c.currentTest,
            tests := fun k =>
              if k = name then
                (c.tests k).map (fun t => { t with operations := t.operations ++ [metric] })
              else c.tests k },
        result := opResult, invoked := true }

/-- Collector.AddCustomMetric. -/
def addCustomMetric (c : Collector) (name : String) (value : GoValue) :
    Collector × Option Err :=
  match c.currentTest with
  | none => (c, some errNoTestRunning)
  | some tn =>
    ({ currentTest := c.currentTest,
       tests := fun k =>
         if k = tn then
           (c.tests k).map (fun t => { t with summary := setKey t.summary name value })
         else c.tests k },
     none)

/-- Accumulator of EndTest's single pass over the operation records. -/
structure SummaryTotals where
  totalDuration : Int
  totalItems : Int
  totalBytes : Int
  successCount : Int
  errorCount : Int
  coldStartCount : Int
deriving DecidableEq, Repr

/-- One step of EndTest's accumulation loop body. -/
def accumulate (acc : SummaryTotals) (op : OperationMetric) : SummaryTotals :=
  { totalDuration := acc.totalDuration + op.duration,
    totalItems := acc.totalItems + op.itemCount,
    totalBytes := acc.totalBytes + op.byteCount,
    successCount := if op.error.isSome then acc.successCount else acc.successCount + 1,
    errorCount := if op.error.isSome then acc.errorCount + 1 else acc.errorCount,
    coldStartCount := if op.isColdStart then acc.coldStartCount + 1 else acc.coldStartCount }

/-- EndTest's accumulation loop over `test.Operations`. -/
def summarizeFrom (acc : SummaryTotals) : List OperationMetric → SummaryTotals
  | [] => acc
  | op :: rest => summarizeFrom (accumulate acc op) rest

/-- The totals EndTest accumulates, starting from all-zero locals. -/
def summarize (ops : List OperationMetric) : SummaryTotals :=
  summarizeFrom { totalDuration := 0, totalItems := 0, totalBytes := 0,
                  successCount := 0, errorCount := 0, coldStartCount := 0 } ops

/-- One pass of the inner loop of EndTest's nested-loop sort, for a fixed
outer index `i` holding `x`: each time `x > durations[j]` the two entries
swap, so the running minimum travels to position `i` and the displaced value
stays at `j`. Returns the final value at position `i` and the updated
suffix. -/
def sweepMin (x : Int) : List Int → Int × List Int
  | [] => (x, [])
  | y :: ys =>
    if x > y then
      let p := sweepMin y ys
      (p.1, x :: p.2)
    else
      let p := sweepMin x ys
      (p.1, y :: p.2)

/-- EndTest's outer sort loop. The fuel is the loop bound `opCount`: the
source runs the outer loop exactly `len(durations)` times, so
`sortPass l.length l` is the sorted array the source indexes into. -/
def sortPass : Nat → List Int → List Int
  | _, [] => []
  | 0, l => l
  | fuel + 1, x :: xs =>
    let p := sweepMin x xs
    p.1 :: sortPass fuel p.2

/-- The nested-loop ascending sort of EndTest. -/
def selectionSort (l : List Int) : List Int := sortPass l.length l

/-- The block of EndTest that populates the eleven always-written summary
keys (collector.go lines 183-194), in source order. `opCount` is `int64` in
the source, so `avgDuration` uses Go's truncated integer division
(`Int.tdiv`); `Seconds()` divides nanoseconds by 1e9, modelled exactly over
the rationals. -/
def baseSummary (s : GoMap) (acc : SummaryTotals) (opCount durationNs : Int) : GoMap :=
  let seconds : Rat := (durationNs : Rat) / 1000000000
  let s := setKey s kOperationCount (GoValue.vInt64 opCount)
  let s := setKey s kTotalDuration (GoValue.vInt64 acc.totalDuration)
  let s := setKey s kAvgDuration (GoValue.vInt64 (Int.tdiv acc.totalDuration opCount))
  let s := setKey s kTotalItems (GoValue.vInt64 acc.totalItems)
  let s := setKey s kTotalBytes (GoValue.vInt64 acc.totalBytes)
  let s := setKey s kSuccessCount (GoValue.vInt64 acc.successCount)
  let s := setKey s kErrorCount (GoValue.vInt64 acc.errorCount)
  let s := setKey s kSuccessRate (GoValue.vFloat64 ((acc.successCount : Rat) / (opCount : Rat)))
  let s := setKey s kThroughputItems (GoValue.vFloat64 ((acc.totalItems : Rat) / seconds))
  let s := setKey s kThroughputBytes (GoValue.vFloat64 ((acc.totalBytes : Rat) / seconds))
  setKey s kColdStartCount (GoValue.vInt64 acc.coldStartCount)

/-- The percentile block of EndTest (collector.go lines 196-216): sort the
per-operation durations and index at `opCount*p/100` (int64 arithmetic on
the nonnegative `opCount`, identical to ℕ arithmetic). -/
def withPercentiles (s : GoMap) (durations : List Int) (n : Nat) : GoMap :=
  let sorted := selectionSort durations
  let s := setKey s kP50 (GoValue.vInt64 (sorted.getD (n * 50 / 100) 0))
  let s := setKey s kP90 (GoValue.vInt64 (sorted.getD (n * 90 / 100) 0))
  setKey s kP99 (GoValue.vInt64 (sorted.getD (n * 99 / 100) 0))

/-- The finalization EndTest performs on the located current run: stamp end
time, derive duration, and compute the summary in place. -/
def finalizeRun (t : TestResult) (now : Int) : TestResult :=
  let duration := now - t.startTime
  let acc := summarize t.operations
  let opCount : Int := t.operations.length
  let summary :=
    if opCount > 0 then
      let s := baseSummary t.summary acc opCount duration
      if opCount ≥ 10 then
        withPercentiles s (t.operations.map (fun op => op.duration)) t.operations.length
      else s
    else t.summary
  { t with endTime := now, duration := duration, summary := summary }

/-- Collector.EndTest: returns `nil` unless `testName` is stored and is the
current run; otherwise finalizes it, clears the current pointer and returns
it. -/
def endTest (c : Collector) (testName : String) (now : Int) :
    Option TestResult × Collector :=
  match c.tests testName with
  | none => (none, c)
  | some t =>
    if c.currentTest = some testName then
      let finalized := finalizeRun t now
      (some finalized,
       { currentTest := none,
         tests := fun k => if k = testName then some finalized else c.tests k })
    else (none, c)

/-- Collector.GetTestResult. -/
def getTestResult (c : Collector) (name : String) : Option TestResult :=
  c.tests name

/-- Collector.ResetCollector. -/
def resetCollector (_ : Collector) : Collector :=
  { currentTest := none, tests := fun _ => none }

/-! ## Operation strategies (operations package) -/

/-- OperationResult of the operations package. `data` is the free-form
result map. -/
structure OperationResult where
  itemsProcessed : Int
  totalDuration : Int
  errors : List Err
  data : GoMap

/-- The zero-initialized result every Execute starts from. -/
def emptyOperationResult : OperationResult :=
  { itemsProcessed := 0, totalDuration := 0, errors := [], data := emptyMap }

/-- The generic `getParam[T]` at `T = int`: the type assertion succeeds only
on a dynamic `int`. -/
def getParamInt (params : GoMap) (key : String) (defaultValue : Int) : Int :=
  match params key with
  | some (GoValue.vInt n) => n
  | _ => defaultValue

/-- The generic `getParam[T]` at `T = int64`. -/
def getParamInt64 (params : GoMap) (key : String) (defaultValue : Int) : Int :=
  match params key with
  | some (GoValue.vInt64 n) => n
  | _ => defaultValue

/-- The generic `getParam[T]` at `T = bool`. -/
def getParamBool (params : GoMap) (key : String) (defaultValue : Bool) : Bool :=
  match params key with
  | some (GoValue.vBool b) => b
  | _ => defaultValue

/-- The generic `getParam[T]` at `T = string`. -/
def getParamStr (params : GoMap) (key : String) (defaultValue : String) : String :=
  match params key with
  | some (GoValue.vStr s) => s
  | _ => defaultValue

/-- TransactionType of pkg/databases. -/
inductive TransactionType where
  | deposit | withdrawal | transfer
deriving DecidableEq, Repr

/-- Transaction of pkg/databases. The random `Metadata` payload is modelled
by its size (the only aspect the core reads); `Amount` is `float64`,
modelled exactly over the rationals. -/
structure Transaction where
  accountID : String
  uuid : String
  timestamp : Int
  amount : Rat
  transactionType : TransactionType
  metadataSize : Int
deriving DecidableEq, Repr

/-- The deterministic transaction id `fmt.Sprintf("%s-tx-%d", accountID, i)`. -/
def deterministicID (accountID : String) (index : Nat) : String :=
  accountID ++ "-tx-" ++ toString index

/-- generateTransaction. `uuidGen` models `uuid.New().String()` per index,
`randUpTo10000` models `rand.Intn(10000)` per index, and `now` the
`time.Now()` timestamp. -/
def generateTransaction (params : GoMap) (index : Nat) (uuidGen : Nat → String)
    (randUpTo10000 : Nat → Int) (now : Int) : Transaction :=
  let accountID := getParamStr params keyAccountId defaultAccount
  let dataSizeBytes := getParamInt params keyDataSize 1024
  let useRandomIDs := getParamBool params keyUseRandomIDs false
  let transactionID :=
    if useRandomIDs then uuidGen index else deterministicID accountID index
  { accountID := accountID, uuid := transactionID, timestamp := now,
    amount := (randUpTo10000 index : Rat) / 100,
    transactionType := TransactionType.deposit,
    metadataSize := dataSizeBytes }

/-- ReadOperation of the operations package. -/
structure ReadOperation where
  params : GoMap
  isParallel : Bool

/-- The per-item read loop of ReadOperation.Execute. `readResult i` is the
error component of `db.ReadTransaction` for item `i`; `opTimes i` are the
clock readings around the measured call. The parallel mode is linearized in
dispatch order (see module comment). Returns the collected error list and
the threaded collector. -/
def readItems (c : Collector) (ids : List String) (index : Nat)
    (dataSizeBytes : Int) (isColdStart : Bool) (readResult : Nat → Option Err)
    (opTimes : Nat → Int × Int) : List Err × Collector :=
  match ids with
  | [] => ([], c)
  | txID :: rest =>
    let times := opTimes index
    let m := measureOperation c OperationType.read 1 dataSizeBytes isColdStart
      (some (readResult index)) times.1 times.2
    let r := readItems m.collector rest (index + 1) dataSizeBytes isColdStart
      readResult opTimes
    match m.result with
    | some e => (msgReadFail txID e :: r.1, r.2)
    | none => r

/-- The shared tail of ReadOperation.Execute once the id list is fixed:
record `itemsProcessed`/`data`, run the reads, compute the total duration,
and fail only when every read failed. -/
def readRun (c : Collector) (ids : List String) (count : Int)
    (dataSizeBytes : Int) (isColdStart : Bool) (readResult : Nat → Option Err)
    (opTimes : Nat → Int × Int) (startNow endNow : Int) :
    OperationResult × Option Err × Collector :=
  let r := readItems c ids 0 dataSizeBytes isColdStart readResult opTimes
  let result : OperationResult :=
    { itemsProcessed := count, totalDuration := endNow - startNow,
      errors := r.1,
      data := setKey emptyMap keyTransactionIDs (GoValue.vStrList ids) }
  if (r.1.length : Int) = count then (result, some errAllReadsFailed, r.2)
  else (result, none, r.2)

/-- ReadOperation.Execute. The `consistentRead` and `concurrency` parameters
are read in the source but do not affect the modelled observable outcome
(they only configure the storage call and the worker-pool width). -/
def readExecute (op : ReadOperation) (c : Collector)
    (readResult : Nat → Option Err) (opTimes : Nat → Int × Int)
    (startNow endNow : Int) : OperationResult × Option Err × Collector :=
  let count := getParamInt op.params keyItemCount 100
  let accountID := getParamStr op.params keyAccountId defaultAccount
  let useRandomIDs := getParamBool op.params keyUseRandomIDs false
  let isColdStart := getParamBool op.params keyIsColdStart false
  let dataSizeBytes := getParamInt op.params keyDataSize 1024
  match op.params keyTransactionIDs with
  | some (GoValue.vStrList specificIDs) =>
    readRun c specificIDs (specificIDs.length : Int) dataSizeBytes isColdStart
      readResult opTimes startNow endNow
  | _ =>
    if useRandomIDs then
      (emptyOperationResult, some errRandomIDsRequirePregen, c)
    else
      let ids := (List.range count.toNat).map (deterministicID accountID)
      readRun c ids count dataSizeBytes isColdStart readResult opTimes
        startNow endNow

/-- WriteOperation of the operations package; `isBatch` is stored in the
shared `isParallel` field by NewWriteOperation. -/
structure WriteOperation where
  params : GoMap
  isBatch : Bool

/-- The individual-writes loop of WriteOperation.Execute. `writeResult i` is
the error component of `db.WriteTransaction` for item `i`. -/
def writeItems (c : Collector) (txs : List Transaction) (index : Nat)
    (dataSizeBytes : Int) (isColdStart : Bool) (writeResult : Nat → Option Err)
    (opTimes : Nat → Int × Int) : List Err × Collector :=
  match txs with
  | [] => ([], c)
  | tx :: rest =>
    let times := opTimes index
    let m := measureOperation c OperationType.write 1 dataSizeBytes isColdStart
      (some (writeResult index)) times.1 times.2
    let r := writeItems m.collector rest (index + 1) dataSizeBytes isColdStart
      writeResult opTimes
    match m.result with
    | some e => (msgWriteFail tx.uuid e :: r.1, r.2)
    | none => r

/-- The batch loop of WriteOperation.Execute, linearized in dispatch order.
`remaining` counts the batches still to dispatch (the loop bound is
`numBatches`); `batchResult i` is the error component of
`db.BatchWriteTransactions` for batch `i`. Each batch covers the item range
`[i*batchSize, min((i+1)*batchSize, count))`, and the measured call records
that batch's length and byte volume. -/
def writeBatches (c : Collector) (index remaining : Nat)
    (count batchSize dataSizeBytes : Int) (isColdStart : Bool)
    (batchResult : Nat → Option Err) (opTimes : Nat → Int × Int) :
    List Err × Collector :=
  match remaining with
  | 0 => ([], c)
  | r + 1 =>
    let startIdx := (index : Int) * batchSize
    let endIdxRaw := ((index : Int) + 1) * batchSize
    let endIdx := if endIdxRaw > count then count else endIdxRaw
    let batchLen := endIdx - startIdx
    let times := opTimes index
    let m := measureOperation c OperationType.batch batchLen
      (batchLen * dataSizeBytes) isColdStart (some (batchResult index))
      times.1 times.2
    let rest := writeBatches m.collector (index + 1) r count batchSize
      dataSizeBytes isColdStart batchResult opTimes
    match m.result with
    | some e => (msgBatchFail index e :: rest.1, rest.2)
    | none => rest

/-- WriteOperation.Execute. Generates `count` transactions, dispatches
individual or batched writes, and fails only when the collected error list
has as many entries as `count` (note: in batch mode errors are per batch). -/
def writeExecute (op : WriteOperation) (c : Collector) (uuidGen : Nat → String)
    (randUpTo10000 : Nat → Int) (now : Int) (writeResult : Nat → Option Err)
    (batchResult : Nat → Option Err) (opTimes : Nat → Int × Int)
    (startNow endNow : Int) : OperationResult × Option Err × Collector :=
  let count := getParamInt op.params keyItemCount 100
  let batchSize := getParamInt op.params keyBatchSize 25
  let isColdStart := getParamBool op.params keyIsColdStart false
  let dataSizeBytes := getParamInt op.params keyDataSize 1024
  let transactions := (List.range count.toNat).map
    (fun i => generateTransaction op.params i uuidGen randUpTo10000 now)
  let transactionIDs := transactions.map (fun tx => tx.uuid)
  let r :=
    if op.isBatch then
      let numBatches := Int.tdiv (count + batchSize - 1) batchSize
      writeBatches c 0 numBatches.toNat count batchSize dataSizeBytes
        isColdStart batchResult opTimes
    else
      writeItems c transactions 0 dataSizeBytes isColdStart writeResult opTimes
  let result : OperationResult :=
    { itemsProcessed := count, totalDuration := endNow - startNow,
      errors := r.1,
      data := setKey emptyMap keyTransactionIDs (GoValue.vStrList transactionIDs) }
  if (r.1.length : Int) = count then (result, some errAllWritesFailed, r.2)
  else (result, none, r.2)

/-- QueryOperation of the operations package. -/
structure QueryOperation where
  params : GoMap

/-- QueryOperation.Execute. `parseRFC3339` models `time.Parse(time.RFC3339, s)`
(`none` on parse failure); `now` is `time.Now()` for the default last-24h
bounds; `queryOutcome` is the result of `db.QueryTransactionsByTimeRange`;
`opStart`/`opEnd` are the clock readings around the measured call. The
resolved time bounds only parameterize the storage call, which the outcome
oracle already fixes. -/
def queryExecute (op : QueryOperation) (c : Collector)
    (parseRFC3339 : String → Option Int) (now : Int)
    (queryOutcome : Except Err (List Transaction)) (opStart opEnd : Int)
    (startNow endNow : Int) : OperationResult × Option Err × Collector :=
  let isColdStart := getParamBool op.params keyIsColdStart false
  let startDate : Option Int :=
    match op.params keyStartTime with
    | some (GoValue.vTime ts) => some ts
    | some (GoValue.vStr s) => parseRFC3339 s
    | _ => none
  let endDate : Option Int :=
    match op.params keyEndTime with
    | some (GoValue.vTime ts) => some ts
    | some (GoValue.vStr s) => parseRFC3339 s
    | _ => none
  let _startDate := startDate.getD (now - 24 * 3600 * 1000000000)
  let _endDate := endDate.getD now
  let limit := getParamInt64 op.params keyLimit 100
  let estimatedItemCount := limit
  let estimatedByteCount := estimatedItemCount * getParamInt op.params keyDataSize 1024
  let workErr : Option Err :=
    match queryOutcome with
    | Except.ok _ => none
    | Except.error e => some e
  let m := measureOperation c OperationType.query estimatedItemCount
    estimatedByteCount isColdStart (some workErr) opStart opEnd
  match m.result with
  | some e =>
    ({ emptyOperationResult with errors := [msgQueryFail e] }, some e, m.collector)
  | none =>
    let transactions :=
      match queryOutcome with
      | Except.ok txs => txs
      | Except.error _ => []
    ({ itemsProcessed := (transactions.length : Int),
       totalDuration := endNow - startNow, errors := [],
       data := setKey emptyMap keyTransactionIDs
         (GoValue.vStrList (transactions.map (fun tx => tx.uuid))) },
     none, m.collector)

/-! ## Derived notions used by the statements -/

/-- The arguments of one MeasureOperation call, for reasoning about call
sequences. -/
structure MeasureCall where
  opType : OperationType
  itemCount : Int
  byteCount : Int
  isColdStart : Bool
  work : Option (Option Err)
  startNow : Int
  endNow : Int

/-- The metric a MeasureOperation call with a non-nil callback records. -/
def metricOfCall (mc : MeasureCall) : OperationMetric :=
  recordedMetric mc.opType mc.itemCount mc.byteCount mc.isColdStart
    (mc.work.getD none) mc.startNow mc.endNow

/-- Apply a sequence of MeasureOperation calls to a collector. -/
def applyMeasures (c : Collector) : List MeasureCall → Collector
  | [] => c
  | mc :: rest =>
    applyMeasures
      (measureOperation c mc.opType mc.itemCount mc.byteCount mc.isColdStart
        mc.work mc.startNow mc.endNow).collector
      rest

/-- The metrics a call sequence records while a run is current: one per call
with a non-nil callback. -/
def recordedMetrics (calls : List MeasureCall) : List OperationMetric :=
  (calls.filter (fun mc => mc.work.isSome)).map metricOfCall

/-- The eleven summary keys EndTest always writes for a non-empty run. -/
def computedBaseKeys : List String :=
  [kOperationCount, kTotalDuration, kAvgDuration, kTotalItems, kTotalBytes,
   kSuccessCount, kErrorCount, kSuccessRate, kThroughputItems,
   kThroughputBytes, kColdStartCount]

/-- All summary keys EndTest may write (the base keys plus percentiles). -/
def computedSummaryKeys : List String :=
  computedBaseKeys ++ [kP50, kP90, kP99]

/-! ## Concrete fixtures for witnesses and counterexamples -/

def exName : String := "t1"

def exNameB : String := "t2"

def exDesc : String := "benchmark"

def exDB : String := "dynamodb"

def exCustomKey : String := "customScore"

def errBoom : Err := "storage unavailable"

/-- A metric with the given duration and outcome. -/
def exMetric (d : Int) (e : Option Err) : OperationMetric :=
  { type := OperationType.read, startTime := 0, endTime := d, duration := d,
    itemCount := 1, byteCount := 10, isColdStart := false, error := e }

/-- A stored run named `exName` with the given records and one custom
summary entry. -/
def exRun (ops : List OperationMetric) : TestResult :=
  { testName := exName, description := exDesc, database := exDB,
    config := emptyMap, parameters := emptyMap, startTime := 0, endTime := 0,
    duration := 0, operations := ops,
    summary := setKey emptyMap exCustomKey (GoValue.vInt64 7) }

/-- Twelve records: durations 1..12 in scrambled order, two failures. -/
def exOps12 : List OperationMetric :=
  [exMetric 5 none, exMetric 3 none, exMetric 8 (some errBoom), exMetric 1 none,
   exMetric 9 none, exMetric 2 none, exMetric 7 (some errBoom), exMetric 4 none,
   exMetric 6 none, exMetric 10 none, exMetric 12 none, exMetric 11 none]

def exOps1 : List OperationMetric := [exMetric 4 none]

/-- A collector whose current run is the stored run `exRun ops`. -/
def exCollector (ops : List OperationMetric) : Collector :=
  { currentTest := some exName,
    tests := fun k => if k = exName then some (exRun ops) else none }

def exParamsN2 : GoMap := setKey emptyMap keyItemCount (GoValue.vInt 2)

def exParamsFloatCount : GoMap :=
  setKey emptyMap keyItemCount (GoValue.vFloat64 50)

def oracleAllFail : Nat → Option Err := fun _ => some errBoom

def oracleFailFirst : Nat → Option Err := fun j => if j = 0 then some errBoom else none

def oracleAllOk : Nat → Option Err := fun _ => none

def oracleTimes : Nat → Int × Int := fun j => ((j : Int), (j : Int) + 1)

def oracleUUID : Nat → String := fun j => deterministicID exDB j

def oracleRand : Nat → Int := fun _ => 1234

def exTx : Transaction :=
  { accountID := defaultAccount, uuid := exName, timestamp := 0, amount := 0,
    transactionType := TransactionType.deposit, metadataSize := 0 }

def exCall : MeasureCall :=
  { opType := OperationType.read, itemCount := 1, byteCount := 2,
    isColdStart := false, work := some none, startNow := 3, endNow := 5 }

/-- StartTest(t1) on a fresh collector. -/
def exC1 : Collector := startTest newCollector exName exDesc exDB emptyMap emptyMap 1

/-- StartTest(t2) superseding t1. -/
def exC2 : Collector := startTest exC1 exNameB exDesc exDB emptyMap emptyMap 2

/-- One measured operation after t2 became current. -/
def exC3 : Collector := applyMeasures exC2 [exCall]

/-! ## Lemmas about the nested-loop sort -/

theorem sweepMin_snd_length (x : Int) (l : List Int) :
    (sweepMin x l).2.length = l.length := by
  induction l generalizing x with
  | nil => rfl
  | cons y ys ih =>
    rw [sweepMin]
    split
    · simpa using ih y
    · simpa using ih x

theorem sweepMin_perm (x : Int) (l : List Int) :
    List.Perm ((sweepMin x l).1 :: (sweepMin x l).2) (x :: l) := by
  induction l generalizing x with
  | nil => rfl
  | cons y ys ih =>
    rw [sweepMin]
    split
    · simp only []
      exact (List.Perm.swap x (sweepMin y ys).1 (sweepMin y ys).2).trans
        ((ih y).cons x)
    · simp only []
      exact ((List.Perm.swap y (sweepMin x ys).1 (sweepMin x ys).2).trans
        ((ih x).cons y)).trans (List.Perm.swap x y ys)

theorem sweepMin_min (x : Int) (l : List Int) :
    (sweepMin x l).1 ≤ x ∧ ∀ z ∈ (sweepMin x l).2, (sweepMin x l).1 ≤ z := by
  induction l generalizing x with
  | nil => exact ⟨le_refl x, by simp [sweepMin]⟩
  | cons y ys ih =>
    rw [sweepMin]
    split
    · rename_i hxy
      refine ⟨le_trans (ih y).1 (le_of_lt hxy), ?_⟩
      intro z hz
      simp only [List.mem_cons] at hz
      rcases hz with rfl | hz
      · exact le_trans (ih y).1 (le_of_lt hxy)
      · exact (ih y).2 z hz
    · rename_i hxy
      refine ⟨(ih x).1, ?_⟩
      intro z hz
      simp only [List.mem_cons] at hz
      rcases hz with rfl | hz
      · exact le_trans (ih x).1 (by omega)
      · exact (ih x).2 z hz

theorem sortPass_perm (fuel : Nat) (l : List Int) (h : l.length ≤ fuel) :
    List.Perm (sortPass fuel l) l := by
  induction fuel generalizing l with
  | zero =>
    cases l with
    | nil => rfl
    | cons x xs => simp at h
  | succ fuel ih =>
    cases l with
    | nil => rfl
    | cons x xs =>
      rw [sortPass]
      have hlen : (sweepMin x xs).2.length ≤ fuel := by
        rw [sweepMin_snd_length]
        simpa using h
      exact ((ih _ hlen).cons _).trans (sweepMin_perm x xs)

theorem sortPass_sorted (fuel : Nat) (l : List Int) (h : l.length ≤ fuel) :
    (sortPass fuel l).Sorted (fun a b => a ≤ b) := by
  induction fuel generalizing l with
  | zero =>
    cases l with
    | nil => simp [sortPass]
    | cons x xs => simp at h
  | succ fuel ih =>
    cases l with
    | nil => simp [sortPass]
    | cons x xs =>
      rw [sortPass]
      have hlen : (sweepMin x xs).2.length ≤ fuel := by
        rw [sweepMin_snd_length]
        simpa using h
      rw [List.sorted_cons]
      refine ⟨?_, ih _ hlen⟩
      intro b hb
      exact (sweepMin_min x xs).2 b ((sortPass_perm fuel _ hlen).mem_iff.mp hb)

theorem selectionSort_perm (l : List Int) : List.Perm (selectionSort l) l :=
  sortPass_perm l.length l (le_refl _)

theorem selectionSort_sorted (l : List Int) :
    (selectionSort l).Sorted (fun a b => a ≤ b) :=
  sortPass_sorted l.length l (le_refl _)

theorem selectionSort_length (l : List Int) :
    (selectionSort l).length = l.length :=
  (selectionSort_perm l).length_eq

/-! ## Lemmas about MeasureOperation -/

theorem measureOperation_currentTest (c : Collector) (ty : OperationType)
    (i b : Int) (cold : Bool) (w : Option (Option Err)) (s e : Int) :
    (measureOperation c ty i b cold w s e).collector.currentTest = c.currentTest := by
  rcases w with _ | r
  · rfl
  · rcases h : c.currentTest with _ | n <;> simp [measureOperation, h]

theorem measureOperation_result_of_current (c : Collector) (n : String)
    (ty : OperationType) (i b : Int) (cold : Bool) (r : Option Err) (s e : Int)
    (h : c.currentTest = some n) :
    (measureOperation c ty i b cold (some r) s e).result = r := by
  simp [measureOperation, h]

theorem measureOperation_invoked_of_current (c : Collector) (n : String)
    (ty : OperationType) (i b : Int) (cold : Bool) (r : Option Err) (s e : Int)
    (h : c.currentTest = some n) :
    (measureOperation c ty i b cold (some r) s e).invoked = true := by
  simp [measureOperation, h]

theorem measureOperation_tests_current (c : Collector) (n : String)
    (ty : OperationType) (i b : Int) (cold : Bool) (r : Option Err) (s e : Int)
    (h : c.currentTest = some n) :
    (measureOperation c ty i b cold (some r) s e).collector.tests n =
      (c.tests n).map (fun t =>
        { t with operations := t.operations ++ [recordedMetric ty i b cold r s e] }) := by
  simp [measureOperation, h]

theorem measureOperation_tests_other (c : Collector) (n k : String)
    (ty : OperationType) (i b : Int) (cold : Bool) (r : Option Err) (s e : Int)
    (h : c.currentTest = some n) (hk : k ≠ n) :
    (measureOperation c ty i b cold (some r) s e).collector.tests k = c.tests k := by
  simp [measureOperation, h, hk]

theorem measureOperation_no_current (c : Collector) (ty : OperationType)
    (i b : Int) (cold : Bool) (r : Option Err) (s e : Int)
    (h : c.currentTest = none) :
    (measureOperation c ty i b cold (some r) s e).result = some errNoTestRunning ∧
    (measureOperation c ty i b cold (some r) s e).invoked = false ∧
    (measureOperation c ty i b cold (some r) s e).collector = c := by
  refine ⟨?_, ?_, ?_⟩ <;> simp [measureOperation, h]

/-! ## Lemmas about EndTest's accumulation pass -/

theorem summarizeFrom_successCount (ops : List OperationMetric)
    (acc : SummaryTotals) :
    (summarizeFrom acc ops).successCount =
      acc.successCount + ((ops.filter (fun op => op.error.isNone)).length : Int) := by
  induction ops generalizing acc with
  | nil => simp [summarizeFrom]
  | cons op rest ih =>
    rw [summarizeFrom, ih]
    rcases hop : op.error with _ | e
    · simp only [accumulate, List.filter_cons, hop, Option.isSome_none,
        Bool.false_eq_true, if_false, Option.isNone_none, if_true,
        List.length_cons]
      push_cast
      ring
    · simp [accumulate, List.filter_cons, hop]

theorem summarizeFrom_errorCount (ops : List OperationMetric)
    (acc : SummaryTotals) :
    (summarizeFrom acc ops).errorCount =
      acc.errorCount + ((ops.filter (fun op => op.error.isSome)).length : Int) := by
  induction ops generalizing acc with
  | nil => simp [summarizeFrom]
  | cons op rest ih =>
    rw [summarizeFrom, ih]
    rcases hop : op.error with _ | e
    · simp [accumulate, List.filter_cons, hop]
    · simp only [accumulate, List.filter_cons, hop, Option.isSome_some,
        if_true, List.length_cons]
      push_cast
      ring

theorem filter_isNone_add_filter_isSome (ops : List OperationMetric) :
    (ops.filter (fun op => op.error.isNone)).length +
      (ops.filter (fun op => op.error.isSome)).length = ops.length := by
  induction ops with
  | nil => rfl
  | cons op rest ih =>
    rcases hop : op.error with _ | e <;> simp [List.filter_cons, hop] <;> omega

/-! ## Lookup lemmas for the computed summary -/

theorem baseSummary_operationCount (s : GoMap) (acc : SummaryTotals) (oc d : Int) :
    baseSummary s acc oc d kOperationCount = some (GoValue.vInt64 oc) := by
  simp [baseSummary, setKey, kOperationCount, kTotalDuration, kAvgDuration,
    kTotalItems, kTotalBytes, kSuccessCount, kErrorCount, kSuccessRate,
    kThroughputItems, kThroughputBytes, kColdStartCount]

theorem baseSummary_totalDuration (s : GoMap) (acc : SummaryTotals) (oc d : Int) :
    baseSummary s acc oc d kTotalDuration = some (GoValue.vInt64 acc.totalDuration) := by
  simp [baseSummary, setKey, kTotalDuration, kAvgDuration,
    kTotalItems, kTotalBytes, kSuccessCount, kErrorCount, kSuccessRate,
    kThroughputItems, kThroughputBytes, kColdStartCount]

theorem baseSummary_avgDuration (s : GoMap) (acc : SummaryTotals) (oc d : Int) :
    baseSummary s acc oc d kAvgDuration =
      some (GoValue.vInt64 (Int.tdiv acc.totalDuration oc)) := by
  simp [baseSummary, setKey, kAvgDuration,
    kTotalItems, kTotalBytes, kSuccessCount, kErrorCount, kSuccessRate,
    kThroughputItems, kThroughputBytes, kColdStartCount]

theorem baseSummary_totalItems (s : GoMap) (acc : SummaryTotals) (oc d : Int) :
    baseSummary s acc oc d kTotalItems = some (GoValue.vInt64 acc.totalItems) := by
  simp [baseSummary, setKey, kTotalItems, kTotalBytes, kSuccessCount,
    kErrorCount, kSuccessRate, kThroughputItems, kThroughputBytes,
    kColdStartCount]

theorem baseSummary_totalBytes (s : GoMap) (acc : SummaryTotals) (oc d : Int) :
    baseSummary s acc oc d kTotalBytes = some (GoValue.vInt64 acc.totalBytes) := by
  simp [baseSummary, setKey, kTotalBytes, kSuccessCount, kErrorCount,
    kSuccessRate, kThroughputItems, kThroughputBytes, kColdStartCount]

theorem baseSummary_successCount (s : GoMap) (acc : SummaryTotals) (oc d : Int) :
    baseSummary s acc oc d kSuccessCount = some (GoValue.vInt64 acc.successCount) := by
  simp [baseSummary, setKey, kSuccessCount, kErrorCount, kSuccessRate,
    kThroughputItems, kThroughputBytes, kColdStartCount]

theorem baseSummary_errorCount (s : GoMap) (acc : SummaryTotals) (oc d : Int) :
    baseSummary s acc oc d kErrorCount = some (GoValue.vInt64 acc.errorCount) := by
  simp [baseSummary, setKey, kErrorCount, kSuccessRate, kThroughputItems,
    kThroughputBytes, kColdStartCount]

theorem baseSummary_successRate (s : GoMap) (acc : SummaryTotals) (oc d : Int) :
    baseSummary s acc oc d kSuccessRate =
      some (GoValue.vFloat64 ((acc.successCount : Rat) / (oc : Rat))) := by
  simp [baseSummary, setKey, kSuccessRate, kThroughputItems, kThroughputBytes,
    kColdStartCount]

theorem baseSummary_throughputItems (s : GoMap) (acc : SummaryTotals) (oc d : Int) :
    baseSummary s acc oc d kThroughputItems =
      some (GoValue.vFloat64 ((acc.totalItems : Rat) / ((d : Rat) / 1000000000))) := by
  simp [baseSummary, setKey, kThroughputItems, kThroughputBytes, kColdStartCount]

theorem baseSummary_throughputBytes (s : GoMap) (acc : SummaryTotals) (oc d : Int) :
    baseSummary s acc oc d kThroughputBytes =
      some (GoValue.vFloat64 ((acc.totalBytes : Rat) / ((d : Rat) / 1000000000))) := by
  simp [baseSummary, setKey, kThroughputBytes, kColdStartCount]

theorem baseSummary_coldStartCount (s : GoMap) (acc : SummaryTotals) (oc d : Int) :
    baseSummary s acc oc d kColdStartCount = some (GoValue.vInt64 acc.coldStartCount) := by
  simp [baseSummary, setKey, kColdStartCount]

theorem baseSummary_other (s : GoMap) (acc : SummaryTotals) (oc d : Int)
    (k : String) (h : k ∉ computedBaseKeys) : baseSummary s acc oc d k = s k := by
  simp only [computedBaseKeys, List.mem_cons, List.not_mem_nil, or_false,
    not_or] at h
  obtain ⟨h1, h2, h3, h4, h5, h6, h7, h8, h9, h10, h11⟩ := h
  simp [baseSummary, setKey, h1, h2, h3, h4, h5, h6, h7, h8, h9, h10, h11]

theorem withPercentiles_p50 (s : GoMap) (durs : List Int) (n : Nat) :
    withPercentiles s durs n kP50 =
      some (GoValue.vInt64 ((selectionSort durs).getD (n * 50 / 100) 0)) := by
  simp [withPercentiles, setKey, kP50, kP90, kP99]

theorem withPercentiles_p90 (s : GoMap) (durs : List Int) (n : Nat) :
    withPercentiles s durs n kP90 =
      some (GoValue.vInt64 ((selectionSort durs).getD (n * 90 / 100) 0)) := by
  simp [withPercentiles, setKey, kP90, kP99]

theorem withPercentiles_p99 (s : GoMap) (durs : List Int) (n : Nat) :
    withPercentiles s durs n kP99 =
      some (GoValue.vInt64 ((selectionSort durs).getD (n * 99 / 100) 0)) := by
  simp [withPercentiles, setKey, kP99]

theorem withPercentiles_other (s : GoMap) (durs : List Int) (n : Nat)
    (k : String) (h50 : k ≠ kP50) (h90 : k ≠ kP90) (h99 : k ≠ kP99) :
    withPercentiles s durs n k = s k := by
  simp [withPercentiles, setKey, h50, h90, h99]

/-! ## Lemmas about EndTest -/

theorem finalizeRun_operations (t : TestResult) (now : Int) :
    (finalizeRun t now).operations = t.operations := rfl

theorem finalizeRun_summary (t : TestResult) (now : Int)
    (h : t.operations ≠ []) :
    (finalizeRun t now).summary =
      if 10 ≤ t.operations.length then
        withPercentiles
          (baseSummary t.summary (summarize t.operations)
            (t.operations.length : Int) (now - t.startTime))
          (t.operations.map (fun op => op.duration)) t.operations.length
      else
        baseSummary t.summary (summarize t.operations)
          (t.operations.length : Int) (now - t.startTime) := by
  have hpos : (0 : Int) < (t.operations.length : Int) := by
    exact_mod_cast List.length_pos.mpr h
  simp only [finalizeRun]
  rw [if_pos hpos]
  by_cases h10 : 10 ≤ t.operations.length
  · rw [if_pos (by exact_mod_cast h10), if_pos h10]
  · rw [if_neg (by exact_mod_cast h10), if_neg h10]

theorem endTest_eq (c : Collector) (name : String) (now : Int) (t0 : TestResult)
    (h1 : c.tests name = some t0) (h2 : c.currentTest = some name) :
    endTest c name now =
      (some (finalizeRun t0 now),
       { currentTest := none,
         tests := fun k => if k = name then some (finalizeRun t0 now)
           else c.tests k }) := by
  simp [endTest, h1, h2]

theorem endTest_not_current (c : Collector) (name : String) (now : Int)
    (h : c.currentTest ≠ some name) : endTest c name now = (none, c) := by
  rcases ht : c.tests name with _ | t <;> simp [endTest, ht, h]

/-! ## Lemmas about sequences of MeasureOperation calls -/

theorem applyMeasures_spec (calls : List MeasureCall) (c : Collector)
    (B : String) (h : c.currentTest = some B) :
    (applyMeasures c calls).currentTest = some B ∧
    (applyMeasures c calls).tests B =
      (c.tests B).map (fun t =>
        { t with operations := t.operations ++ recordedMetrics calls }) ∧
    ∀ k, k ≠ B → (applyMeasures c calls).tests k = c.tests k := by
  induction calls generalizing c with
  | nil =>
    refine ⟨h, ?_, fun k _ => rfl⟩
    rcases ht : c.tests B with _ | t <;> simp [applyMeasures, recordedMetrics, ht]
  | cons mc rest ih =>
    rw [applyMeasures]
    rcases hw : mc.work with _ | r
    · have hcol : (measureOperation c mc.opType mc.itemCount mc.byteCount
          mc.isColdStart none mc.startNow mc.endNow).collector = c := rfl
      rw [hcol]
      obtain ⟨ih1, ih2, ih3⟩ := ih c h
      refine ⟨ih1, ?_, ih3⟩
      rw [ih2]
      simp [recordedMetrics, List.filter_cons, hw]
    · have h' : (measureOperation c mc.opType mc.itemCount mc.byteCount
          mc.isColdStart (some r) mc.startNow mc.endNow).collector.currentTest =
          some B := by
        rw [measureOperation_currentTest]; exact h
      obtain ⟨ih1, ih2, ih3⟩ := ih _ h'
      refine ⟨ih1, ?_, ?_⟩
      · rw [ih2, measureOperation_tests_current c B _ _ _ _ _ _ _ h,
          Option.map_map]
        have hm : metricOfCall mc =
            recordedMetric mc.opType mc.itemCount mc.byteCount mc.isColdStart r
              mc.startNow mc.endNow := by
          simp [metricOfCall, hw]
        rcases ht : c.tests B with _ | t
        · rfl
        · simp only [Option.map_some', Function.comp]
          simp [recordedMetrics, List.filter_cons, hw, hm, List.append_assoc]
      · intro k hk
        rw [ih3 k hk, measureOperation_tests_other c B k _ _ _ _ _ _ _ h hk]

theorem summarize_successCount (ops : List OperationMetric) :
    (summarize ops).successCount =
      ((ops.filter (fun op => op.error.isNone)).length : Int) := by
  rw [summarize, summarizeFrom_successCount]
  simp

theorem summarize_errorCount (ops : List OperationMetric) :
    (summarize ops).errorCount =
      ((ops.filter (fun op => op.error.isSome)).length : Int) := by
  rw [summarize, summarizeFrom_errorCount]
  simp

theorem finalizeRun_summary_empty (t : TestResult) (now : Int)
    (h : t.operations = []) : (finalizeRun t now).summary = t.summary := by
  simp [finalizeRun, h]

theorem finalizeRun_summary_base_lookup (t : TestResult) (now : Int)
    (h : t.operations ≠ []) (k : String) (h50 : k ≠ kP50) (h90 : k ≠ kP90)
    (h99 : k ≠ kP99) :
    (finalizeRun t now).summary k =
      baseSummary t.summary (summarize t.operations) (t.operations.length : Int)
        (now - t.startTime) k := by
  rw [finalizeRun_summary t now h]
  by_cases h10 : 10 ≤ t.operations.length
  · rw [if_pos h10, withPercentiles_other _ _ _ _ h50 h90 h99]
  · rw [if_neg h10]

theorem selectionSort_getD_mono (l : List Int) (i j : Nat) (hij : i ≤ j)
    (hj : j < l.length) :
    (selectionSort l).getD i 0 ≤ (selectionSort l).getD j 0 := by
  have hlen := selectionSort_length l
  have hi' : i < (selectionSort l).length := by omega
  have hj' : j < (selectionSort l).length := by omega
  rw [List.getD_eq_getElem _ _ hi', List.getD_eq_getElem _ _ hj']
  have hs := selectionSort_sorted l
  have := hs.rel_get_of_le (a := ⟨i, hi'⟩) (b := ⟨j, hj'⟩) (by exact hij)
  simpa using this

theorem selectionSort_getD_mem (l : List Int) (i : Nat) (hi : i < l.length) :
    (selectionSort l).getD i 0 ∈ l := by
  have hlen := selectionSort_length l
  have hi' : i < (selectionSort l).length := by omega
  rw [List.getD_eq_getElem _ _ hi']
  exact (selectionSort_perm l).mem_iff.mp (List.getElem_mem hi')

theorem finalizeRun_percentile_lookups (t0 : TestResult) (now : Int)
    (h10 : 10 ≤ t0.operations.length) :
    (finalizeRun t0 now).summary kP50 =
      some (GoValue.vInt64 ((selectionSort (t0.operations.map (fun op => op.duration))).getD
        (t0.operations.length * 50 / 100) 0)) ∧
    (finalizeRun t0 now).summary kP90 =
      some (GoValue.vInt64 ((selectionSort (t0.operations.map (fun op => op.duration))).getD
        (t0.operations.length * 90 / 100) 0)) ∧
    (finalizeRun t0 now).summary kP99 =
      some (GoValue.vInt64 ((selectionSort (t0.operations.map (fun op => op.duration))).getD
        (t0.operations.length * 99 / 100) 0)) := by
  have h3 : t0.operations ≠ [] := by
    intro he
    rw [he] at h10
    simp at h10
  have hs := finalizeRun_summary t0 now h3
  refine ⟨?_, ?_, ?_⟩
  · rw [hs, if_pos h10, withPercentiles_p50]
  · rw [hs, if_pos h10, withPercentiles_p90]
  · rw [hs, if_pos h10, withPercentiles_p99]

/-! ## The claims -/

/-- C6: when a run is current and the work callback is non-nil,
MeasureOperation returns exactly the error value produced by the callback,
unmodified, for both nil and non-nil callback results (`r` ranges over
both), and the callback is invoked; when no run is current, it returns the
no-active-run error and the callback is not invoked. -/
theorem measureOperation_error_pass_through (c : Collector) (ty : OperationType)
    (i b : Int) (cold : Bool) (r : Option Err) (s e : Int) :
    (∀ n, c.currentTest = some n →
      (measureOperation c ty i b cold (some r) s e).result = r ∧
      (measureOperation c ty i b cold (some r) s e).invoked = true) ∧
    (c.currentTest = none →
      (measureOperation c ty i b cold (some r) s e).result = some errNoTestRunning ∧
      (measureOperation c ty i b cold (some r) s e).invoked = false) :=
  ⟨fun n h => ⟨measureOperation_result_of_current c n ty i b cold r s e h,
               measureOperation_invoked_of_current c n ty i b cold r s e h⟩,
   fun h => ⟨(measureOperation_no_current c ty i b cold r s e h).1,
             (measureOperation_no_current c ty i b cold r s e h).2.1⟩⟩

theorem measureOperation_error_pass_through_witness :
    (measureOperation (exCollector exOps1) OperationType.read 1 2 false
      (some (some errBoom)) 0 1).result = some errBoom ∧
    (measureOperation (exCollector exOps1) OperationType.read 1 2 false
      (some none) 0 1).result = none ∧
    (measureOperation newCollector OperationType.read 1 2 false
      (some (some errBoom)) 0 1).result = some errNoTestRunning ∧
    (measureOperation newCollector OperationType.read 1 2 false
      (some (some errBoom)) 0 1).invoked = false :=
  ⟨((measureOperation_error_pass_through (exCollector exOps1) OperationType.read
      1 2 false (some errBoom) 0 1).1 exName rfl).1,
   ((measureOperation_error_pass_through (exCollector exOps1) OperationType.read
      1 2 false none 0 1).1 exName rfl).1,
   ((measureOperation_error_pass_through newCollector OperationType.read
      1 2 false (some errBoom) 0 1).2 rfl).1,
   ((measureOperation_error_pass_through newCollector OperationType.read
      1 2 false (some errBoom) 0 1).2 rfl).2⟩

/-- C10: a strategy parameter that is present under a recognized key but has
the wrong dynamic type is treated as absent: every typed getParam lookup
returns its default, with no error. -/
theorem getParam_wrong_type_yields_default (params : GoMap) (key : String)
    (v : GoValue) (h : params key = some v) :
    ((∀ m, v ≠ GoValue.vInt m) → ∀ d, getParamInt params key d = d) ∧
    ((∀ m, v ≠ GoValue.vInt64 m) → ∀ d, getParamInt64 params key d = d) ∧
    ((∀ bv, v ≠ GoValue.vBool bv) → ∀ d, getParamBool params key d = d) ∧
    ((∀ sv, v ≠ GoValue.vStr sv) → ∀ d, getParamStr params key d = d) := by
  refine ⟨fun hv d => ?_, fun hv d => ?_, fun hv d => ?_, fun hv d => ?_⟩ <;>
    cases v <;>
    first
    | exact absurd rfl (hv _)
    | simp [getParamInt, getParamInt64, getParamBool, getParamStr, h]

theorem getParam_wrong_type_yields_default_witness :
    exParamsFloatCount keyItemCount = some (GoValue.vFloat64 50) ∧
    getParamInt exParamsFloatCount keyItemCount 100 = 100 :=
  ⟨rfl,
   (getParam_wrong_type_yields_default exParamsFloatCount keyItemCount
      (GoValue.vFloat64 50) rfl).1 (fun _ hm => GoValue.noConfusion hm) 100⟩

/-- C2: for every run finalized by EndTest with at least one recorded
operation, successCount + errorCount = operationCount, where operationCount
is the number of records, a record counts toward errorCount exactly when its
error is present, and toward successCount otherwise. -/
theorem endTest_summary_conservation (c : Collector) (name : String)
    (now : Int) (t0 : TestResult) (h1 : c.tests name = some t0)
    (h2 : c.currentTest = some name) (h3 : t0.operations ≠ []) :
    (endTest c name now).1 = some (finalizeRun t0 now) ∧
    (finalizeRun t0 now).operations = t0.operations ∧
    (finalizeRun t0 now).summary kOperationCount =
      some (GoValue.vInt64 (t0.operations.length : Int)) ∧
    (finalizeRun t0 now).summary kSuccessCount =
      some (GoValue.vInt64 ((t0.operations.filter (fun op => op.error.isNone)).length : Int)) ∧
    (finalizeRun t0 now).summary kErrorCount =
      some (GoValue.vInt64 ((t0.operations.filter (fun op => op.error.isSome)).length : Int)) ∧
    ((t0.operations.filter (fun op => op.error.isNone)).length : Int) +
      ((t0.operations.filter (fun op => op.error.isSome)).length : Int) =
      (t0.operations.length : Int) := by
  refine ⟨by rw [endTest_eq c name now t0 h1 h2], rfl, ?_, ?_, ?_, ?_⟩
  · rw [finalizeRun_summary_base_lookup t0 now h3 _ (by decide) (by decide)
      (by decide), baseSummary_operationCount]
  · rw [finalizeRun_summary_base_lookup t0 now h3 _ (by decide) (by decide)
      (by decide), baseSummary_successCount, summarize_successCount]
  · rw [finalizeRun_summary_base_lookup t0 now h3 _ (by decide) (by decide)
      (by decide), baseSummary_errorCount, summarize_errorCount]
  · exact_mod_cast filter_isNone_add_filter_isSome t0.operations

theorem endTest_summary_conservation_witness :
    (exRun exOps12).operations ≠ [] ∧
    (endTest (exCollector exOps12) exName 20).1 =
      some (finalizeRun (exRun exOps12) 20) ∧
    (finalizeRun (exRun exOps12) 20).summary kOperationCount =
      some (GoValue.vInt64 12) ∧
    (finalizeRun (exRun exOps12) 20).summary kSuccessCount =
      some (GoValue.vInt64 10) ∧
    (finalizeRun (exRun exOps12) 20).summary kErrorCount =
      some (GoValue.vInt64 2) := by
  have h := endTest_summary_conservation (exCollector exOps12) exName 20
    (exRun exOps12) rfl rfl (by decide)
  refine ⟨by decide, h.1, ?_, ?_, ?_⟩
  · rw [h.2.2.1]
    decide
  · rw [h.2.2.2.1]
    decide
  · rw [h.2.2.2.2.1]
    decide

/-- C5: at most one run is current per collector: after StartTest(A) then
StartTest(B) with distinct names, any sequence of MeasureOperation calls
records only against B (A's stored run is untouched and no other entry of
the run table changes), EndTest(A) returns nil and leaves the collector
unchanged, and A remains retrievable by name via GetTestResult. -/
theorem collector_at_most_one_current_run (c : Collector) (A B : String)
    (dA dbA dB dbB : String) (cfgA parA cfgB parB : GoMap) (t1 t2 nowEnd : Int)
    (calls : List MeasureCall) (c1 c2 c3 : Collector)
    (hc1 : c1 = startTest c A dA dbA cfgA parA t1)
    (hc2 : c2 = startTest c1 B dB dbB cfgB parB t2)
    (hc3 : c3 = applyMeasures c2 calls) (hAB : A ≠ B) :
    getTestResult c3 A = some (initialRun A dA dbA cfgA parA t1) ∧
    c3.tests B = (c2.tests B).map (fun t =>
      { t with operations := t.operations ++ recordedMetrics calls }) ∧
    (∀ k, k ≠ B → c3.tests k = c2.tests k) ∧
    endTest c3 A nowEnd = (none, c3) := by
  have hcur : c2.currentTest = some B := by rw [hc2]; rfl
  obtain ⟨s1, s2, s3⟩ := applyMeasures_spec calls c2 B hcur
  rw [← hc3] at s1 s2 s3
  have htestsA : c2.tests A = some (initialRun A dA dbA cfgA parA t1) := by
    rw [hc2, hc1]
    simp [startTest, hAB]
  refine ⟨?_, s2, s3, ?_⟩
  · rw [getTestResult, s3 A hAB, htestsA]
  · refine endTest_not_current c3 A nowEnd ?_
    rw [s1]
    intro heq
    exact hAB (Option.some.inj heq).symm

theorem collector_at_most_one_current_run_witness :
    exName ≠ exNameB ∧
    getTestResult exC3 exName =
      some (initialRun exName exDesc exDB emptyMap emptyMap 1) ∧
    endTest exC3 exName 9 = (none, exC3) := by
  have h := collector_at_most_one_current_run newCollector exName exNameB
    exDesc exDB exDesc exDB emptyMap emptyMap emptyMap emptyMap 1 2 9 [exCall]
    exC1 exC2 exC3 rfl rfl rfl (by decide)
  exact ⟨by decide, h.1, h.2.2.2⟩

/-- C3: EndTest computes p50/p90/p99 exactly when the run has at least 10
recorded operations; when computed, each percentile p is the element at
index `opCount * p / 100` of the per-operation durations sorted ascending
(the sort used by the source is proved to produce an ascending-sorted
permutation of the durations), and when not computed the percentile keys
are left exactly as they were (in particular absent for a fresh run). -/
theorem endTest_percentiles_iff (c : Collector) (name : String) (now : Int)
    (t0 : TestResult) (h1 : c.tests name = some t0)
    (h2 : c.currentTest = some name) :
    (endTest c name now).1 = some (finalizeRun t0 now) ∧
    (10 ≤ t0.operations.length →
      (finalizeRun t0 now).summary kP50 =
        some (GoValue.vInt64 ((selectionSort (t0.operations.map (fun op => op.duration))).getD
          (t0.operations.length * 50 / 100) 0)) ∧
      (finalizeRun t0 now).summary kP90 =
        some (GoValue.vInt64 ((selectionSort (t0.operations.map (fun op => op.duration))).getD
          (t0.operations.length * 90 / 100) 0)) ∧
      (finalizeRun t0 now).summary kP99 =
        some (GoValue.vInt64 ((selectionSort (t0.operations.map (fun op => op.duration))).getD
          (t0.operations.length * 99 / 100) 0)) ∧
      (selectionSort (t0.operations.map (fun op => op.duration))).Sorted
        (fun a b => a ≤ b) ∧
      List.Perm (selectionSort (t0.operations.map (fun op => op.duration)))
        (t0.operations.map (fun op => op.duration)) ∧
      (selectionSort (t0.operations.map (fun op => op.duration))).length =
        t0.operations.length) ∧
    (t0.operations.length < 10 →
      (finalizeRun t0 now).summary kP50 = t0.summary kP50 ∧
      (finalizeRun t0 now).summary kP90 = t0.summary kP90 ∧
      (finalizeRun t0 now).summary kP99 = t0.summary kP99) := by
  refine ⟨by rw [endTest_eq c name now t0 h1 h2], fun h10 => ?_, fun hlt => ?_⟩
  · obtain ⟨hp50, hp90, hp99⟩ := finalizeRun_percentile_lookups t0 now h10
    exact ⟨hp50, hp90, hp99, selectionSort_sorted _, selectionSort_perm _,
      by rw [selectionSort_length, List.length_map]⟩
  · by_cases hemp : t0.operations = []
    · have hs := finalizeRun_summary_empty t0 now hemp
      exact ⟨by rw [hs], by rw [hs], by rw [hs]⟩
    · have hs := finalizeRun_summary t0 now hemp
      refine ⟨?_, ?_, ?_⟩ <;>
        rw [hs, if_neg (not_le.mpr hlt), baseSummary_other _ _ _ _ _ (by decide)]

theorem endTest_percentiles_iff_witness :
    (exCollector exOps12).tests exName = some (exRun exOps12) ∧
    10 ≤ (exRun exOps12).operations.length ∧
    (endTest (exCollector exOps12) exName 20).1 =
      some (finalizeRun (exRun exOps12) 20) ∧
    (finalizeRun (exRun exOps12) 20).summary kP50 = some (GoValue.vInt64 7) ∧
    (finalizeRun (exRun exOps12) 20).summary kP90 = some (GoValue.vInt64 11) ∧
    (finalizeRun (exRun exOps12) 20).summary kP99 = some (GoValue.vInt64 12) := by
  have h := endTest_percentiles_iff (exCollector exOps12) exName 20
    (exRun exOps12) rfl rfl
  have h10 : 10 ≤ (exRun exOps12).operations.length := by decide
  refine ⟨rfl, h10, h.1, ?_, ?_, ?_⟩
  · rw [(h.2.1 h10).1]
    decide
  · rw [(h.2.1 h10).2.1]
    decide
  · rw [(h.2.1 h10).2.2.1]
    decide

/-- C4: for every run with at least 10 recorded operations, the computed
percentiles satisfy p50 ≤ p90 ≤ p99, and all three lie within
[min(durations), max(durations)] of the run's per-operation durations. -/
theorem endTest_percentile_monotonicity (c : Collector) (name : String)
    (now : Int) (t0 : TestResult) (durs sorted : List Int) (n : Nat)
    (h1 : c.tests name = some t0) (h2 : c.currentTest = some name)
    (hd : durs = t0.operations.map (fun op => op.duration))
    (hsort : sorted = selectionSort durs) (hn : n = t0.operations.length)
    (h10 : 10 ≤ n) :
    (endTest c name now).1 = some (finalizeRun t0 now) ∧
    (finalizeRun t0 now).summary kP50 =
      some (GoValue.vInt64 (sorted.getD (n * 50 / 100) 0)) ∧
    (finalizeRun t0 now).summary kP90 =
      some (GoValue.vInt64 (sorted.getD (n * 90 / 100) 0)) ∧
    (finalizeRun t0 now).summary kP99 =
      some (GoValue.vInt64 (sorted.getD (n * 99 / 100) 0)) ∧
    sorted.getD (n * 50 / 100) 0 ≤ sorted.getD (n * 90 / 100) 0 ∧
    sorted.getD (n * 90 / 100) 0 ≤ sorted.getD (n * 99 / 100) 0 ∧
    durs.minimum ≤ (sorted.getD (n * 50 / 100) 0 : WithTop Int) ∧
    durs.minimum ≤ (sorted.getD (n * 90 / 100) 0 : WithTop Int) ∧
    durs.minimum ≤ (sorted.getD (n * 99 / 100) 0 : WithTop Int) ∧
    ((sorted.getD (n * 50 / 100) 0 : Int) : WithBot Int) ≤ durs.maximum ∧
    ((sorted.getD (n * 90 / 100) 0 : Int) : WithBot Int) ≤ durs.maximum ∧
    ((sorted.getD (n * 99 / 100) 0 : Int) : WithBot Int) ≤ durs.maximum := by
  subst hd hsort hn
  have hall := finalizeRun_percentile_lookups t0 now h10
  have hlen : (t0.operations.map (fun op => op.duration)).length =
      t0.operations.length := List.length_map _ _
  have h99lt : t0.operations.length * 99 / 100 < t0.operations.length :=
    (Nat.div_lt_iff_lt_mul (by omega)).mpr (by omega)
  have h5090 : t0.operations.length * 50 / 100 ≤ t0.operations.length * 90 / 100 :=
    Nat.div_le_div_right (by omega)
  have h9099 : t0.operations.length * 90 / 100 ≤ t0.operations.length * 99 / 100 :=
    Nat.div_le_div_right (by omega)
  have h50lt : t0.operations.length * 50 / 100 < t0.operations.length := by omega
  have h90lt : t0.operations.length * 90 / 100 < t0.operations.length := by omega
  have hm50 := selectionSort_getD_mem (t0.operations.map (fun op => op.duration))
    (t0.operations.length * 50 / 100) (by omega)
  have hm90 := selectionSort_getD_mem (t0.operations.map (fun op => op.duration))
    (t0.operations.length * 90 / 100) (by omega)
  have hm99 := selectionSort_getD_mem (t0.operations.map (fun op => op.duration))
    (t0.operations.length * 99 / 100) (by omega)
  refine ⟨by rw [endTest_eq c name now t0 h1 h2], hall.1, hall.2.1, hall.2.2,
    selectionSort_getD_mono _ _ _ h5090 (by omega),
    selectionSort_getD_mono _ _ _ h9099 (by omega),
    List.minimum_le_of_mem' hm50, List.minimum_le_of_mem' hm90,
    List.minimum_le_of_mem' hm99, List.le_maximum_of_mem' hm50,
    List.le_maximum_of_mem' hm90, List.le_maximum_of_mem' hm99⟩

theorem endTest_percentile_monotonicity_witness :
    10 ≤ (12 : Nat) ∧
    (finalizeRun (exRun exOps12) 20).summary kP50 = some (GoValue.vInt64 7) ∧
    (finalizeRun (exRun exOps12) 20).summary kP90 = some (GoValue.vInt64 11) ∧
    (finalizeRun (exRun exOps12) 20).summary kP99 = some (GoValue.vInt64 12) ∧
    ((7 : Int) ≤ 11 ∧ (11 : Int) ≤ 12) ∧
    ((exRun exOps12).operations.map (fun op => op.duration)).minimum =
      some 1 ∧
    ((exRun exOps12).operations.map (fun op => op.duration)).maximum =
      some 12 := by
  have h := endTest_percentile_monotonicity (exCollector exOps12) exName 20
    (exRun exOps12) ((exRun exOps12).operations.map (fun op => op.duration))
    (selectionSort ((exRun exOps12).operations.map (fun op => op.duration)))
    (exRun exOps12).operations.length rfl rfl rfl rfl rfl (by decide)
  refine ⟨by decide, ?_, ?_, ?_, ⟨by decide, by decide⟩, by decide, by decide⟩
  · rw [h.2.1]
    decide
  · rw [h.2.2.1]
    decide
  · rw [h.2.2.2.1]
    decide

/-! ## Lemmas about the read loop -/

theorem readItems_errors_length (ids : List String) (c : Collector) (i : Nat)
    (d : Int) (cold : Bool) (rr : Nat → Option Err) (times : Nat → Int × Int)
    (n : String) (h : c.currentTest = some n) :
    (readItems c ids i d cold rr times).1.length =
      (List.range ids.length).countP (fun j => (rr (i + j)).isSome) := by
  induction ids generalizing c i with
  | nil => simp [readItems]
  | cons txID rest ih =>
    have hres : (measureOperation c OperationType.read 1 d cold (some (rr i))
        (times i).1 (times i).2).result = rr i :=
      measureOperation_result_of_current _ n _ _ _ _ _ _ _ h
    have hcur : (measureOperation c OperationType.read 1 d cold (some (rr i))
        (times i).1 (times i).2).collector.currentTest = some n := by
      rw [measureOperation_currentTest]; exact h
    have ihr := ih _ (i + 1) hcur
    have hfun : (fun j => (rr (i + 1 + j)).isSome) =
        (fun j => (rr (i + Nat.succ j)).isSome) := by
      funext j
      have : i + 1 + j = i + Nat.succ j := by omega
      rw [this]
    rw [readItems]
    simp only [hres]
    rcases hri : rr i with _ | e
    · rw [hri] at ihr
      simp only []
      rw [ihr, hfun]
      simp [List.length_cons, List.range_succ_eq_map, List.countP_cons,
        List.countP_map, hri]
      rfl
    · rw [hri] at ihr
      simp only []
      rw [List.length_cons, ihr, hfun]
      simp [List.length_cons, List.range_succ_eq_map, List.countP_cons,
        List.countP_map, hri]
      rfl

theorem readItems_errors_length_zero (ids : List String) (c : Collector)
    (d : Int) (cold : Bool) (rr : Nat → Option Err) (times : Nat → Int × Int)
    (n : String) (h : c.currentTest = some n) :
    (readItems c ids 0 d cold rr times).1.length =
      (List.range ids.length).countP (fun j => (rr j).isSome) := by
  rw [readItems_errors_length ids c 0 d cold rr times n h]
  congr 1
  funext j
  simp

theorem readRun_spec (c : Collector) (ids : List String) (count d : Int)
    (cold : Bool) (rr : Nat → Option Err) (times : Nat → Int × Int)
    (sN eN : Int) (n : String) (h : c.currentTest = some n) :
    (readRun c ids count d cold rr times sN eN).1.itemsProcessed = count ∧
    (readRun c ids count d cold rr times sN eN).1.errors.length =
      (List.range ids.length).countP (fun j => (rr j).isSome) ∧
    (readRun c ids count d cold rr times sN eN).2.1 =
      (if (((List.range ids.length).countP (fun j => (rr j).isSome) : Nat) : Int) = count
       then some errAllReadsFailed else none) := by
  have hlen := readItems_errors_length_zero ids c d cold rr times n h
  refine ⟨?_, ?_, ?_⟩
  · simp only [readRun]
    split <;> rfl
  · simp only [readRun]
    split <;> simpa using hlen
  · simp only [readRun]
    rw [hlen]
    split
    · rfl
    · rfl

/-- C7 counterexample: a parallel Read over N = 2 items where exactly k = 1
item fails returns no top-level error and 1 error entry, but itemsProcessed
is 2 (the attempted count), not N − k = 1 as the claim reads. -/
theorem readExecute_itemsProcessed_counterexample :
    (readExecute { params := exParamsN2, isParallel := true }
      (exCollector exOps1) oracleFailFirst oracleTimes 0 9).2.1 = none ∧
    (readExecute { params := exParamsN2, isParallel := true }
      (exCollector exOps1) oracleFailFirst oracleTimes 0 9).1.errors.length = 1 ∧
    (readExecute { params := exParamsN2, isParallel := true }
      (exCollector exOps1) oracleFailFirst oracleTimes 0 9).1.itemsProcessed = 2 ∧
    (2 : Int) ≠ 2 - 1 :=
  ⟨by decide, by decide, by decide, by decide⟩

/-- C7 (amended): for every parallel Read over N generated items where
exactly k items fail (0 < k < N), Execute returns no top-level error and the
errors list has exactly k entries; itemsProcessed equals N, the number of
attempted items (the source sets it before executing the reads), not the
number of successes N − k. -/
theorem readExecute_partial_failure (ps : GoMap) (c : Collector) (n : String)
    (rr : Nat → Option Err) (times : Nat → Int × Int) (sN eN : Int)
    (N : Int) (k : Nat) (h1 : c.currentTest = some n)
    (h2 : ps keyTransactionIDs = none)
    (h3 : getParamBool ps keyUseRandomIDs false = false)
    (hN : N = getParamInt ps keyItemCount 100) (hNpos : 0 < N)
    (hk : k = (List.range N.toNat).countP (fun j => (rr j).isSome))
    (_hk0 : 0 < k) (hkN : k < N.toNat) :
    (readExecute { params := ps, isParallel := true } c rr times sN eN).2.1 = none ∧
    (readExecute { params := ps, isParallel := true } c rr times sN eN).1.errors.length = k ∧
    (readExecute { params := ps, isParallel := true } c rr times sN eN).1.itemsProcessed = N := by
  have hexec : readExecute { params := ps, isParallel := true } c rr times sN eN =
      readRun c ((List.range (getParamInt ps keyItemCount 100).toNat).map
          (deterministicID (getParamStr ps keyAccountId defaultAccount)))
        (getParamInt ps keyItemCount 100)
        (getParamInt ps keyDataSize 1024)
        (getParamBool ps keyIsColdStart false) rr times sN eN := by
    simp only [readExecute, h2, h3]
    rfl
  have hids : ((List.range (getParamInt ps keyItemCount 100).toNat).map
      (deterministicID (getParamStr ps keyAccountId defaultAccount))).length =
      N.toNat := by
    rw [List.length_map, List.length_range, hN]
  have hspec := readRun_spec c
    ((List.range (getParamInt ps keyItemCount 100).toNat).map
      (deterministicID (getParamStr ps keyAccountId defaultAccount)))
    (getParamInt ps keyItemCount 100) (getParamInt ps keyDataSize 1024)
    (getParamBool ps keyIsColdStart false) rr times sN eN n h1
  rw [hids, ← hk] at hspec
  have hkne : ((k : Nat) : Int) ≠ getParamInt ps keyItemCount 100 := by
    rw [← hN]
    intro heq
    have : (k : Int) < (N.toNat : Int) := by exact_mod_cast hkN
    rw [Int.toNat_of_nonneg (le_of_lt hNpos)] at this
    omega
  refine ⟨?_, ?_, ?_⟩
  · rw [hexec, hspec.2.2, if_neg hkne]
  · rw [hexec]
    exact hspec.2.1
  · rw [hexec, hspec.1, hN]

theorem readExecute_partial_failure_witness :
    (exCollector exOps1).currentTest = some exName ∧
    exParamsN2 keyTransactionIDs = none ∧
    (0 : Int) < 2 ∧
    (readExecute { params := exParamsN2, isParallel := true }
      (exCollector exOps1) oracleFailFirst oracleTimes 0 9).2.1 = none ∧
    (readExecute { params := exParamsN2, isParallel := true }
      (exCollector exOps1) oracleFailFirst oracleTimes 0 9).1.errors.length = 1 ∧
    (readExecute { params := exParamsN2, isParallel := true }
      (exCollector exOps1) oracleFailFirst oracleTimes 0 9).1.itemsProcessed = 2 := by
  have h := readExecute_partial_failure exParamsN2 (exCollector exOps1) exName
    oracleFailFirst oracleTimes 0 9 2 1 rfl rfl rfl (by decide) (by decide)
    (by decide) (by decide) (by decide)
  exact ⟨rfl, rfl, by decide, h.1, h.2.1, h.2.2⟩

/-- C8 counterexample: EndTest on a run with one recorded operation never
writes a key named `averageDuration`; the average lives under `avgDuration`.
The claim's key list (taken from the spec) therefore does not match the
written keys. -/
theorem endTest_averageDuration_counterexample :
    (endTest (exCollector exOps1) exName 20).1 =
      some (finalizeRun (exRun exOps1) 20) ∧
    (exRun exOps1).operations ≠ [] ∧
    (finalizeRun (exRun exOps1) 20).summary kAverageDuration = none ∧
    (finalizeRun (exRun exOps1) 20).summary kAvgDuration =
      some (GoValue.vInt64 4) := by
  refine ⟨?_, by decide, by decide, by decide⟩
  rw [endTest_eq (exCollector exOps1) exName 20 (exRun exOps1) rfl rfl]

/-- C8 (amended): for every run with at least one recorded operation,
EndTest writes exactly the computed summary keys operationCount,
totalDuration, avgDuration (this is the key the source writes; the spec's
`averageDuration` does not exist), totalItems, totalBytes, successCount,
errorCount, successRate (= successCount/operationCount), throughputItems
(= totalItems/run-duration-seconds), throughputBytes
(= totalBytes/run-duration-seconds) and coldStartCount — plus p50/p90/p99
when applicable — and leaves every key outside this computed set, in
particular every custom metric added under a different key, unchanged. -/
theorem endTest_summary_keys_frame (c : Collector) (name : String) (now : Int)
    (t0 : TestResult) (h1 : c.tests name = some t0)
    (h2 : c.currentTest = some name) (h3 : t0.operations ≠ []) :
    (endTest c name now).1 = some (finalizeRun t0 now) ∧
    (finalizeRun t0 now).summary kOperationCount =
      some (GoValue.vInt64 (t0.operations.length : Int)) ∧
    (finalizeRun t0 now).summary kTotalDuration =
      some (GoValue.vInt64 (summarize t0.operations).totalDuration) ∧
    (finalizeRun t0 now).summary kAvgDuration =
      some (GoValue.vInt64 (Int.tdiv (summarize t0.operations).totalDuration
        (t0.operations.length : Int))) ∧
    (finalizeRun t0 now).summary kTotalItems =
      some (GoValue.vInt64 (summarize t0.operations).totalItems) ∧
    (finalizeRun t0 now).summary kTotalBytes =
      some (GoValue.vInt64 (summarize t0.operations).totalBytes) ∧
    (finalizeRun t0 now).summary kSuccessCount =
      some (GoValue.vInt64 (summarize t0.operations).successCount) ∧
    (finalizeRun t0 now).summary kErrorCount =
      some (GoValue.vInt64 (summarize t0.operations).errorCount) ∧
    (finalizeRun t0 now).summary kSuccessRate =
      some (GoValue.vFloat64 (((summarize t0.operations).successCount : Rat) /
        ((t0.operations.length : Int) : Rat))) ∧
    (finalizeRun t0 now).summary kThroughputItems =
      some (GoValue.vFloat64 (((summarize t0.operations).totalItems : Rat) /
        (((now - t0.startTime : Int) : Rat) / 1000000000))) ∧
    (finalizeRun t0 now).summary kThroughputBytes =
      some (GoValue.vFloat64 (((summarize t0.operations).totalBytes : Rat) /
        (((now - t0.startTime : Int) : Rat) / 1000000000))) ∧
    (finalizeRun t0 now).summary kColdStartCount =
      some (GoValue.vInt64 (summarize t0.operations).coldStartCount) ∧
    (∀ k, k ∉ computedSummaryKeys →
      (finalizeRun t0 now).summary k = t0.summary k) := by
  refine ⟨by rw [endTest_eq c name now t0 h1 h2], ?_, ?_, ?_, ?_, ?_, ?_, ?_,
    ?_, ?_, ?_, ?_, ?_⟩
  · rw [finalizeRun_summary_base_lookup t0 now h3 _ (by decide) (by decide)
      (by decide), baseSummary_operationCount]
  · rw [finalizeRun_summary_base_lookup t0 now h3 _ (by decide) (by decide)
      (by decide), baseSummary_totalDuration]
  · rw [finalizeRun_summary_base_lookup t0 now h3 _ (by decide) (by decide)
      (by decide), baseSummary_avgDuration]
  · rw [finalizeRun_summary_base_lookup t0 now h3 _ (by decide) (by decide)
      (by decide), baseSummary_totalItems]
  · rw [finalizeRun_summary_base_lookup t0 now h3 _ (by decide) (by decide)
      (by decide), baseSummary_totalBytes]
  · rw [finalizeRun_summary_base_lookup t0 now h3 _ (by decide) (by decide)
      (by decide), baseSummary_successCount]
  · rw [finalizeRun_summary_base_lookup t0 now h3 _ (by decide) (by decide)
      (by decide), baseSummary_errorCount]
  · rw [finalizeRun_summary_base_lookup t0 now h3 _ (by decide) (by decide)
      (by decide), baseSummary_successRate]
  · rw [finalizeRun_summary_base_lookup t0 now h3 _ (by decide) (by decide)
      (by decide), baseSummary_throughputItems]
  · rw [finalizeRun_summary_base_lookup t0 now h3 _ (by decide) (by decide)
      (by decide), baseSummary_throughputBytes]
  · rw [finalizeRun_summary_base_lookup t0 now h3 _ (by decide) (by decide)
      (by decide), baseSummary_coldStartCount]
  · intro k hk
    have hmem : k ∉ computedBaseKeys ∧ k ≠ kP50 ∧ k ≠ kP90 ∧ k ≠ kP99 := by
      constructor
      · intro hc
        exact hk (by simp [computedSummaryKeys, List.mem_append, hc])
      refine ⟨?_, ?_, ?_⟩ <;> intro he <;> subst he <;>
        exact hk (by simp [computedSummaryKeys])
    rw [finalizeRun_summary_base_lookup t0 now h3 k hmem.2.1 hmem.2.2.1
      hmem.2.2.2, baseSummary_other _ _ _ _ _ hmem.1]

theorem endTest_summary_keys_frame_witness :
    (exRun exOps12).operations ≠ [] ∧
    (exRun exOps12).summary exCustomKey = some (GoValue.vInt64 7) ∧
    exCustomKey ∉ computedSummaryKeys ∧
    (finalizeRun (exRun exOps12) 20).summary exCustomKey =
      some (GoValue.vInt64 7) ∧
    (finalizeRun (exRun exOps12) 20).summary kAvgDuration =
      some (GoValue.vInt64 6) := by
  have h := endTest_summary_keys_frame (exCollector exOps12) exName 20
    (exRun exOps12) rfl rfl (by decide)
  refine ⟨by decide, by decide, by decide, ?_, ?_⟩
  · rw [h.2.2.2.2.2.2.2.2.2.2.2.2 exCustomKey (by decide)]
    decide
  · rw [h.2.2.2.1]
    decide

/-- C9: for every Query operation run against a current run, the item and
byte counts recorded via MeasureOperation are fixed estimates — itemCount is
the configured limit (default 100) and byteCount is limit times the
configured dataSize (default 1024) — regardless of the actual query outcome,
while the returned OperationResult.itemsProcessed equals the number of
records actually retrieved. -/
theorem queryExecute_estimated_metrics (ps : GoMap) (c : Collector)
    (n : String) (t0 : TestResult) (parse : String → Option Int) (now : Int)
    (outcome : Except Err (List Transaction)) (opS opE sN eN : Int)
    (h1 : c.currentTest = some n) (h2 : c.tests n = some t0) :
    ((queryExecute { params := ps } c parse now outcome opS opE sN eN).2.2.tests n).map
        (fun t => t.operations.map (fun m => (m.itemCount, m.byteCount))) =
      some (t0.operations.map (fun m => (m.itemCount, m.byteCount)) ++
        [(getParamInt64 ps keyLimit 100,
          getParamInt64 ps keyLimit 100 * getParamInt ps keyDataSize 1024)]) ∧
    (∀ txs, outcome = Except.ok txs →
      (queryExecute { params := ps } c parse now outcome opS opE sN eN).1.itemsProcessed =
        (txs.length : Int)) := by
  rcases outcome with e | txs
  · constructor
    · simp only [queryExecute]
      rw [measureOperation_result_of_current c n _ _ _ _ _ _ _ h1]
      simp only []
      rw [measureOperation_tests_current c n _ _ _ _ _ _ _ h1, h2]
      simp [recordedMetric]
    · intro txs heq
      exact absurd heq (by intro hx; cases hx)
  · constructor
    · simp only [queryExecute]
      rw [measureOperation_result_of_current c n _ _ _ _ _ _ _ h1]
      simp only []
      rw [measureOperation_tests_current c n _ _ _ _ _ _ _ h1, h2]
      simp [recordedMetric]
    · intro txs2 heq
      have : txs2 = txs := by
        cases heq
        rfl
      subst this
      simp only [queryExecute]
      rw [measureOperation_result_of_current c n _ _ _ _ _ _ _ h1]

theorem queryExecute_estimated_metrics_witness :
    (exCollector exOps1).currentTest = some exName ∧
    ((queryExecute { params := emptyMap } (exCollector exOps1) (fun _ => none) 0
        (Except.ok [exTx]) 0 1 0 9).2.2.tests exName).map
        (fun t => t.operations.map (fun m => (m.itemCount, m.byteCount))) =
      some [(1, 10), (100, 102400)] ∧
    (queryExecute { params := emptyMap } (exCollector exOps1) (fun _ => none) 0
      (Except.ok [exTx]) 0 1 0 9).1.itemsProcessed = 1 := by
  have h := queryExecute_estimated_metrics emptyMap (exCollector exOps1) exName
    (exRun exOps1) (fun _ => none) 0 (Except.ok [exTx]) 0 1 0 9 rfl rfl
  refine ⟨rfl, ?_, ?_⟩
  · rw [h.1]
    decide
  · rw [h.2 [exTx] rfl]
    decide

/-- C1 (code bug): a batched Write over 2 items whose only batch fails —
so every item fails — returns NO top-level error: the source compares the
number of failed batches (here 1) against the item count (here 2), so the
all-items-failed rule the spec states (and the source's own comment `Return
error if all operations failed` intends) is not enforced in batch mode. The
collector's records confirm a single failed batch write covering both
items. -/
theorem writeExecute_batch_all_items_fail_returns_nil :
    getParamInt exParamsN2 keyItemCount 100 = 2 ∧
    (writeExecute { params := exParamsN2, isBatch := true } (exCollector exOps1)
      oracleUUID oracleRand 0 oracleAllOk oracleAllFail oracleTimes 0 9).1.errors =
      [msgBatchFail 0 errBoom] ∧
    ((writeExecute { params := exParamsN2, isBatch := true } (exCollector exOps1)
      oracleUUID oracleRand 0 oracleAllOk oracleAllFail oracleTimes 0 9).2.2.tests
        exName).map (fun t => t.operations.map (fun m => (m.itemCount, m.error))) =
      some ((exOps1.map (fun m => (m.itemCount, m.error))) ++ [(2, some errBoom)]) ∧
    (writeExecute { params := exParamsN2, isBatch := true } (exCollector exOps1)
      oracleUUID oracleRand 0 oracleAllOk oracleAllFail oracleTimes 0 9).2.1 =
      none :=
  ⟨by decide, by decide, by decide, by decide⟩

end Benchmark
